import Mathlib

/-!
Formal model of the core logic of a personal-finance web application
(source: src/App.js).  The model covers:

* the calendar arithmetic performed through ECMAScript `Date`
  (month/day normalization in the `new Date(y, m, d)` constructor,
  `getDay`, `setDate`, `setHours`, and the `toLocaleDateString`-based
  month-year label `formatMonthYear`);
* the three record collections (incomes, expenses, recurring-bill
  templates) and the five mutating operations (add income, add expense,
  add template, mark paid, delete);
* the derived-value computations `avgMonthlyIncome`, `avgMonthlyExpense`,
  `filteredDues` / `totalMonthlyDues`, `getPaidAmount`, `remainingToPay`,
  `paymentProgress` and `filteredTransactions` (the period report).

Modelling conventions:

* JavaScript numbers that hold currency amounts are modelled as `Rat`
  (the arithmetic performed on them is `+`, `-`, `/`, `*`, all within
  exact decimal range in the source).
* Record dates are stored by the application as `"YYYY-MM-DD"` strings
  (date-input values, or `today.toISOString().substring(0, 10)` in the
  mark-paid handler) and parsed back to timestamps at midnight, so a
  stored date is modelled as a calendar date `Date`; where the source
  compares a record date with a timestamp, the record contributes the
  timestamp of its midnight.  The environment timezone is fixed to UTC,
  so the local calendar and the ISO/UTC calendar coincide.
* A current moment (`new Date()`) is a `DateTime`: a calendar date plus
  the number of milliseconds elapsed since that day's midnight.
* Integer division below is `Int`'s `/` and `%` (Euclidean, which for
  the positive literal divisors used here agrees with floor division,
  the rounding used by calendar algorithms).
-/

namespace FinanceApp

/-! ## Calendar arithmetic (ECMAScript proleptic Gregorian calendar) -/

/-- Proleptic Gregorian leap-year rule (the rule ECMAScript `Date` uses). -/
def IsLeap (y : Int) : Prop :=
  y % 4 = 0 ∧ (y % 100 ≠ 0 ∨ y % 400 = 0)

instance (y : Int) : Decidable (IsLeap y) := by
  unfold IsLeap; infer_instance

/-- Number of days of month `m` (0-based, January = 0) of year `y`.
Out-of-range `m` is never passed by the definitions below with a
normalized month, but the function is total. -/
def daysInMonth (y m : Int) : Int :=
  if m = 1 then (if IsLeap y then 29 else 28)
  else if m = 3 ∨ m = 5 ∨ m = 8 ∨ m = 10 then 30
  else 31

/-- Epoch day number (days since 1970-01-01) of the first day of the
absolute month `t` (`t = 12 * year + month`, month 0-based).  This is the
standard civil-calendar conversion implemented by ECMAScript `Date`'s
`MakeDay`; months outside 0..11 roll over into neighbouring years, which
is exactly how `new Date(y, m, d)` normalizes its month argument. -/
def monthFirstDay (t : Int) : Int :=
  let y0 : Int := t / 12
  let m1 : Int := t % 12 + 1
  let y : Int := if m1 ≤ 2 then y0 - 1 else y0
  let era : Int := y / 400
  let yoe : Int := y - era * 400
  let mp : Int := if m1 ≤ 2 then m1 + 9 else m1 - 3
  let doy : Int := (153 * mp + 2) / 5
  let doe : Int := yoe * 365 + yoe / 4 - yoe / 100 + doy
  era * 146097 + doe - 719468

/-- Epoch day number of `new Date(y, m, d)` (month 0-based), including
ECMAScript's normalization of out-of-range month and day arguments: day
`d` is `d - 1` days after the first of the (normalized) month. -/
def mkDays (y m d : Int) : Int :=
  monthFirstDay (12 * y + m) + (d - 1)

/-- A calendar date as the application stores it: year, 0-based month
(as returned by `getMonth`), 1-based day of month. -/
structure Date where
  year : Int
  month : Int
  day : Int
deriving DecidableEq, Repr

/-- A date actually denoting a calendar day (normalized fields). -/
def Date.valid (d : Date) : Prop :=
  0 ≤ d.month ∧ d.month < 12 ∧ 1 ≤ d.day ∧ d.day ≤ daysInMonth d.year d.month

instance (d : Date) : Decidable d.valid := by
  unfold Date.valid; infer_instance

/-- Epoch day number of a calendar date. -/
def Date.days (d : Date) : Int :=
  mkDays d.year d.month d.day

/-- Calendar order on dates (year, then month, then day). -/
def Date.lexLe (a b : Date) : Prop :=
  a.year < b.year ∨
    (a.year = b.year ∧
      (a.month < b.month ∨ (a.month = b.month ∧ a.day ≤ b.day)))

instance (a b : Date) : Decidable (a.lexLe b) := by
  unfold Date.lexLe; infer_instance

/-- Short month name used by `toLocaleDateString('en-US', { month: 'short' })`. -/
def monthShortName (m : Int) : String :=
  if m = 0 then "Jan" else if m = 1 then "Feb" else if m = 2 then "Mar"
  else if m = 3 then "Apr" else if m = 4 then "May" else if m = 5 then "Jun"
  else if m = 6 then "Jul" else if m = 7 then "Aug" else if m = 8 then "Sep"
  else if m = 9 then "Oct" else if m = 10 then "Nov" else if m = 11 then "Dec"
  else ""

/-- The month-year label `formatMonthYear`:
`date.toLocaleDateString('en-US', { year: 'numeric', month: 'short' })`,
for example "Nov 2025". -/
def formatMonthYear (d : Date) : String :=
  monthShortName d.month ++ " " ++ toString d.year

/-- Milliseconds per day. -/
def msPerDay : Int := 86400000

/-- A current moment (`new Date()`): a calendar date plus milliseconds
since that day's midnight. -/
structure DateTime where
  date : Date
  ms : Int
deriving DecidableEq, Repr

/-- A well-formed moment. -/
def DateTime.valid (n : DateTime) : Prop :=
  n.date.valid ∧ 0 ≤ n.ms ∧ n.ms < msPerDay

instance (n : DateTime) : Decidable n.valid := by
  unfold DateTime.valid; infer_instance

/-- Millisecond timestamp of a moment. -/
def DateTime.ts (n : DateTime) : Int :=
  n.date.days * msPerDay + n.ms

/-! ## Record collections (the three Firestore collections) -/

/-- An income record (collection `users/{uid}/incomes`). -/
structure Income where
  id : String
  clientName : String
  amount : Rat
  date : Date
  type : String
deriving DecidableEq, Repr

/-- An expense record (collection `users/{uid}/expenses`).  Fields that a
given document may lack (`isGenerated` on user-entered expenses,
`recurringTemplateId`, `paidFor`, `frequency`) are `Option` / default
`false`; a missing field reads as JavaScript `undefined`, which is falsy. -/
structure Expense where
  id : String
  name : String
  amount : Rat
  date : Date
  category : String
  isRecurring : Bool
  isGenerated : Bool
  recurringTemplateId : Option String
  paidFor : Option String
  frequency : Option String
deriving DecidableEq, Repr

/-- A recurring-bill template (collection `users/{uid}/recurringTemplates`). -/
structure Template where
  id : String
  name : String
  amount : Rat
  category : String
  frequency : Option String
  dueDay : Int
  createdAt : Date
deriving DecidableEq, Repr

/-- JavaScript truthiness of a possibly-missing string field: `undefined`
and the empty string are falsy. -/
def strTruthy : Option String → Bool
  | none => false
  | some s => !(s == "")

/-! ## Aggregation engine (the `useMemo` computations) -/

/-- Sum of the `amount` fields of an income list (`reduce((sum, inc) =>
sum + inc.amount, 0)`). -/
def sumIncome (l : List Income) : Rat :=
  (l.map Income.amount).sum

/-- Sum of the `amount` fields of an expense list. -/
def sumExpense (l : List Expense) : Rat :=
  (l.map Expense.amount).sum

/-- Sum of the `amount` fields of a template list. -/
def sumTemplate (l : List Template) : Rat :=
  (l.map Template.amount).sum

/-- Average income: 0 for an empty list, otherwise the total divided by
`Math.max(1, incomes.length)`. -/
def avgMonthlyIncome (incomes : List Income) : Rat :=
  if incomes.length = 0 then 0
  else sumIncome incomes / ((max 1 incomes.length : Nat) : Rat)

/-- Average expense, same shape as `avgMonthlyIncome`. -/
def avgMonthlyExpense (expenses : List Expense) : Rat :=
  if expenses.length = 0 then 0
  else sumExpense expenses / ((max 1 expenses.length : Nat) : Rat)

/-- Effective frequency of a template: `template.frequency || 'Monthly'`
(a missing or empty frequency falls back to Monthly). -/
def effFrequency (t : Template) : String :=
  match t.frequency with
  | none => "Monthly"
  | some s => if s = "" then "Monthly" else s

/-- Templates whose effective frequency equals the selected dues filter. -/
def filteredDues (templates : List Template) (duesFilter : String) : List Template :=
  templates.filter (fun t => effFrequency t == duesFilter)

/-- Total dues for the selected filter. -/
def totalMonthlyDues (templates : List Template) (duesFilter : String) : Rat :=
  sumTemplate (filteredDues templates duesFilter)

/-- Paid amount for the current month: sum over expenses with a truthy
`recurringTemplateId` whose date's month-year label is the current one.
`today` is the calendar date of `new Date()`. -/
def getPaidAmount (expenses : List Expense) (today : Date) : Rat :=
  sumExpense (expenses.filter (fun e =>
    strTruthy e.recurringTemplateId
      && (formatMonthYear e.date == formatMonthYear today)))

/-- Remaining amount: `totalMonthlyDues - getPaidAmount`. -/
def remainingToPay (templates : List Template) (duesFilter : String)
    (expenses : List Expense) (today : Date) : Rat :=
  totalMonthlyDues templates duesFilter - getPaidAmount expenses today

/-- Payment progress: `(paid / dues) * 100` when dues are positive, else 0. -/
def paymentProgress (templates : List Template) (duesFilter : String)
    (expenses : List Expense) (today : Date) : Rat :=
  if totalMonthlyDues templates duesFilter > 0 then
    getPaidAmount expenses today / totalMonthlyDues templates duesFilter * 100
  else 0

/-- The period report computed by `filteredTransactions`. -/
structure Report where
  incomes : List Income
  expenses : List Expense
  totalIncome : Rat
  totalExpense : Rat
  netCashflow : Rat
deriving DecidableEq, Repr

/-- The `[start, end]` millisecond range of the report period.

* Monthly: `new Date(y, m, 1)` through `new Date(y, m + 1, 0)` (both at
  midnight, the constructor zeroes the time of day).
* Weekly: the source computes `diff = now.getDate() - day + (day === 0 ?
  -6 : 1)` and then `start = new Date(now.setDate(diff))`; `setDate`
  replaces the day-of-month relative to the date's own month, so the
  result is `mkDays year month diff` at `now`'s unchanged time of day.
  The end is `end.setDate(start.getDate() + 6)`: setting the day of month
  to its own value plus 6 advances by exactly 6 days under any month
  decomposition, so the end is `start + 6` days, again at `now`'s time of
  day.
* Daily (any other selector value): `now.setHours(0, 0, 0, 0)` through
  `now.setHours(23, 59, 59, 999)` of the current calendar day. -/
def reportRange (reportView : String) (now : DateTime) : Int × Int :=
  if reportView == "Monthly" then
    (mkDays now.date.year now.date.month 1 * msPerDay,
     mkDays now.date.year (now.date.month + 1) 0 * msPerDay)
  else if reportView == "Weekly" then
    let day : Int := (now.date.days + 4) % 7
    let diff : Int := now.date.day - day + (if day = 0 then -6 else 1)
    let startDays : Int := mkDays now.date.year now.date.month diff
    (startDays * msPerDay + now.ms, (startDays + 6) * msPerDay + now.ms)
  else
    (now.date.days * msPerDay, now.date.days * msPerDay + 86399999)

/-- The period report: records whose (midnight) timestamp lies in the
inclusive range, plus totals and net cash flow. -/
def filteredTransactions (incomes : List Income) (expenses : List Expense)
    (reportView : String) (now : DateTime) : Report :=
  let r := reportRange reportView now
  let fi := incomes.filter (fun i =>
    decide (r.1 ≤ i.date.days * msPerDay) && decide (i.date.days * msPerDay ≤ r.2))
  let fe := expenses.filter (fun e =>
    decide (r.1 ≤ e.date.days * msPerDay) && decide (e.date.days * msPerDay ≤ r.2))
  { incomes := fi
    expenses := fe
    totalIncome := sumIncome fi
    totalExpense := sumExpense fe
    netCashflow := sumIncome fi - sumExpense fe }

/-- The reactive view parameters and data snapshot the engine reads. -/
structure ViewState where
  incomes : List Income
  expenses : List Expense
  recurringTemplates : List Template
  duesFilter : String
  reportView : String
  now : DateTime
deriving DecidableEq, Repr

/-- All derived outputs of the aggregation engine. -/
structure Dashboard where
  avgMonthlyIncome : Rat
  avgMonthlyExpense : Rat
  totalMonthlyDues : Rat
  getPaidAmount : Rat
  remainingToPay : Rat
  paymentProgress : Rat
  report : Report
deriving DecidableEq, Repr

/-- One evaluation of every derived value from a snapshot. -/
def derive (s : ViewState) : Dashboard :=
  { avgMonthlyIncome := avgMonthlyIncome s.incomes
    avgMonthlyExpense := avgMonthlyExpense s.expenses
    totalMonthlyDues := totalMonthlyDues s.recurringTemplates s.duesFilter
    getPaidAmount := getPaidAmount s.expenses s.now.date
    remainingToPay := remainingToPay s.recurringTemplates s.duesFilter s.expenses s.now.date
    paymentProgress := paymentProgress s.recurringTemplates s.duesFilter s.expenses s.now.date
    report := filteredTransactions s.incomes s.expenses s.reportView s.now }

/-! ## Recurring bill state resolver -/

/-- The duplicate-payment pre-check of `handleMarkPaid` (and the `isPaid`
check rendered by the recurring-bills screens): some expense references
the template and carries the given month-year label on its date. -/
def alreadyPaid (t : Template) (expenses : List Expense) (today : Date) : Bool :=
  expenses.any (fun e =>
    e.recurringTemplateId == some t.id
      && (formatMonthYear e.date == formatMonthYear today))

/-- The is-paid check parameterized by an arbitrary month-year label (as
instantiated at the current label by the `RecurringBills` view). -/
def isPaid (t : Template) (label : String) (expenses : List Expense) : Bool :=
  expenses.any (fun e =>
    e.recurringTemplateId == some t.id && (formatMonthYear e.date == label))

/-- The generated expense record `handleMarkPaid` submits: the template's
name, amount and category, dated today (the handler passes
`today.toISOString().substring(0, 10)`, which the add handler parses back
to the same calendar day), flagged recurring and generated, with the
back-reference and the discharged month label. -/
def genExpense (id : String) (t : Template) (today : Date) : Expense :=
  { id := id
    name := t.name
    amount := t.amount
    date := today
    category := t.category
    isRecurring := true
    isGenerated := true
    recurringTemplateId := some t.id
    paidFor := some (formatMonthYear today)
    frequency := none }

/-- Outcome of a mark-paid call. -/
inductive MarkPaidResult where
  | duplicate : MarkPaidResult
  | created : Expense → MarkPaidResult
deriving DecidableEq, Repr

/-- `handleMarkPaid`: if the duplicate pre-check fires, notify and leave
the store untouched; otherwise submit exactly one generated expense.
`id` is the document id the store assigns on insert. -/
def markPaid (t : Template) (expenses : List Expense) (today : Date)
    (id : String) : MarkPaidResult × List Expense :=
  if alreadyPaid t expenses today then
    (MarkPaidResult.duplicate, expenses)
  else
    (MarkPaidResult.created (genExpense id t today),
      expenses ++ [genExpense id t today])

/-! ## Sequential operation model

State transitions as observed through the store's live snapshots when
each operation completes (and its snapshot is delivered) before the next
one begins.  Subscription ordering (date-descending for records,
name-ascending for templates) only affects presentation, not membership,
so a new document is appended; deletion removes the document with the
given id. -/

/-- The submission of the add-income form: `clientName`, `amount`, `date`
and `type`. -/
structure IncomeForm where
  clientName : String
  amount : Rat
  date : Date
  type : String
deriving DecidableEq, Repr

/-- The submission of the add-expense form on its non-recurring path:
`name`, `amount`, `date`, `category`, plus the form state's
`isRecurring = false` and its `frequency` field, which are spread into
the stored document. -/
structure ExpenseForm where
  name : String
  amount : Rat
  date : Date
  category : String
  frequency : String
deriving DecidableEq, Repr

/-- The submission of the add-expense form on its recurring path, handed
to `handleAddRecurringTemplate`. -/
structure TemplateForm where
  name : String
  amount : Rat
  date : Date
  category : String
  frequency : String
deriving DecidableEq, Repr

/-- The income document created by `handleAddIncome`. -/
def Income.ofForm (id : String) (f : IncomeForm) : Income :=
  { id := id
    clientName := f.clientName
    amount := f.amount
    date := f.date
    type := f.type }

/-- The expense document created by `handleAddExpense` from the user
form: no `isGenerated`, no `recurringTemplateId`, no `paidFor`. -/
def Expense.ofForm (id : String) (f : ExpenseForm) : Expense :=
  { id := id
    name := f.name
    amount := f.amount
    date := f.date
    category := f.category
    isRecurring := false
    isGenerated := false
    recurringTemplateId := none
    paidFor := none
    frequency := some f.frequency }

/-- The template document created by `handleAddRecurringTemplate`:
`dueDay` is the day component of the form's date, `createdAt` the moment
of creation. -/
def Template.ofForm (id : String) (f : TemplateForm) (now : Date) : Template :=
  { id := id
    name := f.name
    amount := f.amount
    category := f.category
    frequency := some f.frequency
    dueDay := f.date.day
    createdAt := now }

/-- The data snapshot: the three collections. -/
structure AppState where
  incomes : List Income
  expenses : List Expense
  recurringTemplates : List Template
deriving DecidableEq, Repr

/-- One completed user operation, as reflected in the next snapshot. -/
inductive Step : AppState → AppState → Prop where
  | addIncome (s : AppState) (f : IncomeForm) (id : String) :
      Step s { s with incomes := s.incomes ++ [Income.ofForm id f] }
  | addExpense (s : AppState) (f : ExpenseForm) (id : String) :
      Step s { s with expenses := s.expenses ++ [Expense.ofForm id f] }
  | addTemplate (s : AppState) (f : TemplateForm) (id : String) (now : Date) :
      Step s { s with recurringTemplates :=
        s.recurringTemplates ++ [Template.ofForm id f now] }
  | markPaidOp (s : AppState) (t : Template) (today : Date) (id : String)
      (ht : t ∈ s.recurringTemplates) :
      Step s { s with expenses := (markPaid t s.expenses today id).2 }
  | deleteIncome (s : AppState) (id : String) :
      Step s { s with incomes := s.incomes.filter (fun r => !(r.id == id)) }
  | deleteExpense (s : AppState) (id : String) :
      Step s { s with expenses := s.expenses.filter (fun r => !(r.id == id)) }
  | deleteTemplate (s : AppState) (id : String) :
      Step s { s with recurringTemplates :=
        s.recurringTemplates.filter (fun r => !(r.id == id)) }

/-- States reachable from the empty initial snapshot by completed
operations. -/
inductive Reachable : AppState → Prop where
  | init : Reachable ⟨[], [], []⟩
  | step {s s' : AppState} : Reachable s → Step s s' → Reachable s'

/-- Number of generated expenses referencing template id `tid` whose date
carries month-year label `label`. -/
def genCount (es : List Expense) (tid : String) (label : String) : Nat :=
  (es.filter (fun e =>
    e.isGenerated && e.recurringTemplateId == some tid
      && (formatMonthYear e.date == label))).length

/-- The at-most-one-generated-expense-per-(template, month) invariant. -/
def Inv (s : AppState) : Prop :=
  ∀ tid label, genCount s.expenses tid label ≤ 1

/-! ## Specification vocabulary

Definitions following the specification's wording, used to state the
properties the derived values are compared against. -/

/-- First calendar day of the month a date lies in. -/
def firstOfMonth (d : Date) : Date :=
  ⟨d.year, d.month, 1⟩

/-- Last calendar day of the month a date lies in. -/
def lastOfMonth (d : Date) : Date :=
  ⟨d.year, d.month, daysInMonth d.year d.month⟩

/-- Last calendar day of the previous month. -/
def prevMonthLastDay (d : Date) : Date :=
  if d.month = 0 then ⟨d.year - 1, 11, 31⟩
  else ⟨d.year, d.month - 1, daysInMonth d.year (d.month - 1)⟩

/-- First calendar day of the next month. -/
def nextMonthFirstDay (d : Date) : Date :=
  if d.month = 11 then ⟨d.year + 1, 0, 1⟩
  else ⟨d.year, d.month + 1, 1⟩

/-- ISO weekday of an epoch day number: Monday = 1 through Sunday = 7
(the Sunday that ECMAScript `getDay` reports as 0 is treated as day 7). -/
def isoWeekday (days : Int) : Int :=
  if (days + 4) % 7 = 0 then 7 else (days + 4) % 7

/-- Epoch day number of the Monday of the week the given day lies in. -/
def mondayOfWeek (days : Int) : Int :=
  days - (isoWeekday days - 1)

/-! ## Concrete sample data (used to instantiate the general theorems) -/

/-- Wednesday, November 5, 2025. -/
def sampleDate : Date := ⟨2025, 10, 5⟩

/-- Monday, November 3, 2025. -/
def sampleMonday : Date := ⟨2025, 10, 3⟩

/-- A current moment 1 millisecond past midnight of `sampleDate`. -/
def sampleNow : DateTime := ⟨sampleDate, 1⟩

/-- A recurring-bill template. -/
def sampleTemplate : Template :=
  ⟨"tpl1", "Rent", 500, "Rent/Mortgage", some "Monthly", 5, sampleDate⟩

/-- A weekly template, used to check dues-filter invariance. -/
def weeklyTemplate : Template :=
  ⟨"tpl2", "Cleaner", 80, "Other", some "Weekly", 5, sampleDate⟩

/-- Two income records with amounts 1000 and 2000. -/
def sampleIncome1 : Income := ⟨"i1", "Acme", 1000, sampleDate, "RETAINER"⟩

def sampleIncome2 : Income := ⟨"i2", "Beta", 2000, sampleDate, "ONE_TIME"⟩

/-- An income record dated the Monday of `sampleNow`'s week. -/
def mondayIncome : Income := ⟨"i3", "Acme", 1000, sampleMonday, "RETAINER"⟩

/-- A generated expense that overpays relative to an empty template list. -/
def overpayExpense : Expense :=
  ⟨"e9", "Big", 600, sampleDate, "Other", true, true, some "tpl1",
    some (formatMonthYear sampleDate), none⟩

/-- The add-expense form submission used in sample runs. -/
def sampleTemplateForm : TemplateForm :=
  ⟨"Rent", 500, sampleDate, "Rent/Mortgage", "Monthly"⟩

/-- An unrelated user expense form (no template back-reference). -/
def sampleExpenseForm : ExpenseForm :=
  ⟨"Coffee", 5, sampleDate, "Groceries", "Monthly"⟩

/-- A complete sample view state. -/
def sampleView : ViewState :=
  ⟨[sampleIncome1], [overpayExpense], [sampleTemplate], "Monthly", "Monthly",
    sampleNow⟩

/-! ## Calendar lemmas -/

theorem daysInMonth_bounds (y m : Int) :
    28 ≤ daysInMonth y m ∧ daysInMonth y m ≤ 31 := by
  unfold daysInMonth
  split_ifs <;> norm_num

theorem monthFirstDay_succ (t : Int) :
    monthFirstDay (t + 1) = monthFirstDay t + daysInMonth (t / 12) (t % 12) := by
  have hcase : t % 12 = 0 ∨ t % 12 = 1 ∨ t % 12 = 2 ∨ t % 12 = 3 ∨ t % 12 = 4 ∨
      t % 12 = 5 ∨ t % 12 = 6 ∨ t % 12 = 7 ∨ t % 12 = 8 ∨ t % 12 = 9 ∨
      t % 12 = 10 ∨ t % 12 = 11 := by omega
  rcases hcase with h | h | h | h | h | h | h | h | h | h | h | h
  · have e1 : (t + 1) / 12 = t / 12 := by omega
    have e2 : (t + 1) % 12 = 1 := by omega
    simp only [monthFirstDay, daysInMonth]
    rw [e1, e2, h]
    norm_num; omega
  · have e1 : (t + 1) / 12 = t / 12 := by omega
    have e2 : (t + 1) % 12 = 2 := by omega
    simp only [monthFirstDay, daysInMonth]
    rw [e1, e2, h]
    norm_num
    split_ifs with hL
    · unfold IsLeap at hL
      omega
    · unfold IsLeap at hL
      omega
  · have e1 : (t + 1) / 12 = t / 12 := by omega
    have e2 : (t + 1) % 12 = 3 := by omega
    simp only [monthFirstDay, daysInMonth]
    rw [e1, e2, h]
    norm_num; omega
  · have e1 : (t + 1) / 12 = t / 12 := by omega
    have e2 : (t + 1) % 12 = 4 := by omega
    simp only [monthFirstDay, daysInMonth]
    rw [e1, e2, h]
    norm_num; omega
  · have e1 : (t + 1) / 12 = t / 12 := by omega
    have e2 : (t + 1) % 12 = 5 := by omega
    simp only [monthFirstDay, daysInMonth]
    rw [e1, e2, h]
    norm_num; omega
  · have e1 : (t + 1) / 12 = t / 12 := by omega
    have e2 : (t + 1) % 12 = 6 := by omega
    simp only [monthFirstDay, daysInMonth]
    rw [e1, e2, h]
    norm_num; omega
  · have e1 : (t + 1) / 12 = t / 12 := by omega
    have e2 : (t + 1) % 12 = 7 := by omega
    simp only [monthFirstDay, daysInMonth]
    rw [e1, e2, h]
    norm_num; omega
  · have e1 : (t + 1) / 12 = t / 12 := by omega
    have e2 : (t + 1) % 12 = 8 := by omega
    simp only [monthFirstDay, daysInMonth]
    rw [e1, e2, h]
    norm_num; omega
  · have e1 : (t + 1) / 12 = t / 12 := by omega
    have e2 : (t + 1) % 12 = 9 := by omega
    simp only [monthFirstDay, daysInMonth]
    rw [e1, e2, h]
    norm_num; omega
  · have e1 : (t + 1) / 12 = t / 12 := by omega
    have e2 : (t + 1) % 12 = 10 := by omega
    simp only [monthFirstDay, daysInMonth]
    rw [e1, e2, h]
    norm_num; omega
  · have e1 : (t + 1) / 12 = t / 12 := by omega
    have e2 : (t + 1) % 12 = 11 := by omega
    simp only [monthFirstDay, daysInMonth]
    rw [e1, e2, h]
    norm_num; omega
  · have e1 : (t + 1) / 12 = t / 12 + 1 := by omega
    have e2 : (t + 1) % 12 = 0 := by omega
    simp only [monthFirstDay, daysInMonth]
    rw [e1, e2, h]
    norm_num; omega

theorem monthFirstDay_add_one_ge (t : Int) :
    monthFirstDay t + 28 ≤ monthFirstDay (t + 1) := by
  have h := monthFirstDay_succ t
  have hb := daysInMonth_bounds (t / 12) (t % 12)
  omega

theorem monthFirstDay_mono {s t : Int} (h : s ≤ t) :
    monthFirstDay s ≤ monthFirstDay t := by
  exact @Int.le_induction (fun n => monthFirstDay s ≤ monthFirstDay n) s
    (le_refl _)
    (fun n _ ih => by have := monthFirstDay_add_one_ge n; omega)
    t h

theorem Date.days_eq (d : Date) :
    d.days = monthFirstDay (12 * d.year + d.month) + d.day - 1 := by
  simp only [Date.days, mkDays]
  omega

theorem days_in_month_range (d : Date) (h : d.valid) :
    monthFirstDay (12 * d.year + d.month) ≤ d.days ∧
      d.days < monthFirstDay (12 * d.year + d.month + 1) := by
  obtain ⟨h1, h2, h3, h4⟩ := h
  have hsucc := monthFirstDay_succ (12 * d.year + d.month)
  have hdiv : (12 * d.year + d.month) / 12 = d.year := by omega
  have hmod : (12 * d.year + d.month) % 12 = d.month := by omega
  rw [hdiv, hmod] at hsucc
  have hde := Date.days_eq d
  omega

theorem days_le_iff_lexLe {a b : Date} (ha : a.valid) (hb : b.valid) :
    a.days ≤ b.days ↔ a.lexLe b := by
  have hra := days_in_month_range a ha
  have hrb := days_in_month_range b hb
  obtain ⟨ha1, ha2, ha3, ha4⟩ := ha
  obtain ⟨hb1, hb2, hb3, hb4⟩ := hb
  have hda := Date.days_eq a
  have hdb := Date.days_eq b
  unfold Date.lexLe
  rcases lt_trichotomy (12 * a.year + a.month) (12 * b.year + b.month)
    with hlt | heq | hgt
  · have hmono := monthFirstDay_mono
      (show 12 * a.year + a.month + 1 ≤ 12 * b.year + b.month by omega)
    omega
  · rw [heq] at hra hda
    omega
  · have hmono := monthFirstDay_mono
      (show 12 * b.year + b.month + 1 ≤ 12 * a.year + a.month by omega)
    omega

theorem mkDays_next_month_zero (y m : Int) (h0 : 0 ≤ m) (h1 : m < 12) :
    mkDays y (m + 1) 0 = monthFirstDay (12 * y + m) + daysInMonth y m - 1 := by
  have hsucc := monthFirstDay_succ (12 * y + m)
  have hdiv : (12 * y + m) / 12 = y := by omega
  have hmod : (12 * y + m) % 12 = m := by omega
  rw [hdiv, hmod] at hsucc
  simp only [mkDays]
  have harg : 12 * y + (m + 1) = 12 * y + m + 1 := by ring
  rw [harg]
  omega

theorem firstOfMonth_days (d : Date) :
    (firstOfMonth d).days = monthFirstDay (12 * d.year + d.month) := by
  simp only [firstOfMonth, Date.days, mkDays]
  omega

theorem firstOfMonth_valid (d : Date) (h0 : 0 ≤ d.month) (h1 : d.month < 12) :
    (firstOfMonth d).valid := by
  have hb := daysInMonth_bounds d.year d.month
  simp only [firstOfMonth, Date.valid]
  omega

theorem lastOfMonth_days (d : Date) :
    (lastOfMonth d).days =
      monthFirstDay (12 * d.year + d.month) + daysInMonth d.year d.month - 1 := by
  simp only [lastOfMonth, Date.days, mkDays]
  omega

theorem lastOfMonth_valid (d : Date) (h0 : 0 ≤ d.month) (h1 : d.month < 12) :
    (lastOfMonth d).valid := by
  have hb := daysInMonth_bounds d.year d.month
  simp only [lastOfMonth, Date.valid]
  omega

theorem prevMonthLastDay_days (d : Date) (h0 : 0 ≤ d.month) (h1 : d.month < 12) :
    (prevMonthLastDay d).days = monthFirstDay (12 * d.year + d.month) - 1 := by
  unfold prevMonthLastDay
  split_ifs with hm
  · have hsucc := monthFirstDay_succ (12 * d.year - 1)
    have hdiv : (12 * d.year - 1) / 12 = d.year - 1 := by omega
    have hmod : (12 * d.year - 1) % 12 = 11 := by omega
    rw [hdiv, hmod] at hsucc
    have hdim : daysInMonth (d.year - 1) 11 = 31 := by
      unfold daysInMonth; norm_num
    rw [hdim] at hsucc
    have harg : 12 * d.year - 1 + 1 = 12 * d.year + d.month := by omega
    rw [harg] at hsucc
    simp only [Date.days, mkDays]
    have harg2 : 12 * (d.year - 1) + 11 = 12 * d.year - 1 := by ring
    rw [harg2]
    omega
  · have hsucc := monthFirstDay_succ (12 * d.year + d.month - 1)
    have hdiv : (12 * d.year + d.month - 1) / 12 = d.year := by omega
    have hmod : (12 * d.year + d.month - 1) % 12 = d.month - 1 := by omega
    rw [hdiv, hmod] at hsucc
    have harg : 12 * d.year + d.month - 1 + 1 = 12 * d.year + d.month := by omega
    rw [harg] at hsucc
    simp only [Date.days, mkDays]
    have harg2 : 12 * d.year + (d.month - 1) = 12 * d.year + d.month - 1 := by ring
    rw [harg2]
    omega

theorem nextMonthFirstDay_days (d : Date) (_h0 : 0 ≤ d.month) (_h1 : d.month < 12) :
    (nextMonthFirstDay d).days = monthFirstDay (12 * d.year + d.month + 1) := by
  unfold nextMonthFirstDay
  split_ifs with hm
  · simp only [Date.days, mkDays]
    have harg : 12 * (d.year + 1) + 0 = 12 * d.year + d.month + 1 := by omega
    rw [harg]
    omega
  · simp only [Date.days, mkDays]
    have harg : 12 * d.year + (d.month + 1) = 12 * d.year + d.month + 1 := by ring
    rw [harg]
    omega

/-! ## Engine lemmas and claim theorems -/


theorem alreadyPaid_iff (t : Template) (es : List Expense) (today : Date) :
    alreadyPaid t es today = true ↔
      ∃ e ∈ es, e.recurringTemplateId = some t.id ∧
        formatMonthYear e.date = formatMonthYear today := by
  simp [alreadyPaid, List.any_eq_true]

theorem genCount_append_single (es : List Expense) (e : Expense)
    (tid label : String) :
    genCount (es ++ [e]) tid label =
      genCount es tid label +
        (if (e.isGenerated && e.recurringTemplateId == some tid
            && (formatMonthYear e.date == label)) = true then 1 else 0) := by
  by_cases hc : (e.isGenerated && e.recurringTemplateId == some tid
      && (formatMonthYear e.date == label)) = true
  · simp [genCount, List.filter_append, hc]
  · simp [genCount, List.filter_append, hc]

theorem genCount_filter_le (es : List Expense) (q : Expense → Bool)
    (tid label : String) :
    genCount (es.filter q) tid label ≤ genCount es tid label := by
  apply List.Sublist.length_le
  exact List.Sublist.filter _ (List.filter_sublist es)

theorem alreadyPaid_false_genCount (t : Template) (es : List Expense)
    (today : Date) (h : alreadyPaid t es today = false) :
    genCount es t.id (formatMonthYear today) = 0 := by
  simp only [alreadyPaid, List.any_eq_false] at h
  simp only [genCount, List.length_eq_zero, List.filter_eq_nil_iff]
  intro e he
  have he2 := h e he
  simp only [Bool.and_eq_true, not_and] at he2 ⊢
  intro hab hc
  exact he2 hab.2 hc

/-- C1: mark-paid either detects a duplicate payment for the current
month-year label and leaves the expense collection unchanged, or submits
exactly one generated expense carrying the template's data, today's date,
both flags, the back-reference and the current label. -/
theorem claim_c1 (t : Template) (expenses : List Expense) (today : Date)
    (id : String) :
    ((∃ e ∈ expenses, e.recurringTemplateId = some t.id ∧
        formatMonthYear e.date = formatMonthYear today) →
      markPaid t expenses today id = (MarkPaidResult.duplicate, expenses))
    ∧ (¬ (∃ e ∈ expenses, e.recurringTemplateId = some t.id ∧
        formatMonthYear e.date = formatMonthYear today) →
      markPaid t expenses today id =
        (MarkPaidResult.created (genExpense id t today),
          expenses ++ [genExpense id t today])
      ∧ (genExpense id t today).name = t.name
      ∧ (genExpense id t today).amount = t.amount
      ∧ (genExpense id t today).date = today
      ∧ (genExpense id t today).category = t.category
      ∧ (genExpense id t today).isRecurring = true
      ∧ (genExpense id t today).isGenerated = true
      ∧ (genExpense id t today).recurringTemplateId = some t.id
      ∧ (genExpense id t today).paidFor = some (formatMonthYear today)) := by
  constructor
  · intro h
    have hb : alreadyPaid t expenses today = true :=
      (alreadyPaid_iff t expenses today).mpr h
    simp [markPaid, hb]
  · intro h
    cases hb : alreadyPaid t expenses today
    · simp [markPaid, hb, genExpense]
    · exact absurd ((alreadyPaid_iff t expenses today).mp hb) h

/-- C1 witness: on `sampleTemplate` with no prior expenses the mark-paid
succeeds, and with the generated expense present it reports a duplicate. -/
theorem claim_c1_witness :
    markPaid sampleTemplate [] sampleDate "e1" =
      (MarkPaidResult.created (genExpense "e1" sampleTemplate sampleDate),
        [genExpense "e1" sampleTemplate sampleDate])
    ∧ markPaid sampleTemplate [genExpense "e1" sampleTemplate sampleDate]
        sampleDate "e2" =
      (MarkPaidResult.duplicate, [genExpense "e1" sampleTemplate sampleDate]) := by
  constructor
  · exact ((claim_c1 sampleTemplate [] sampleDate "e1").2 (by simp)).1
  · refine (claim_c1 sampleTemplate [genExpense "e1" sampleTemplate sampleDate]
      sampleDate "e2").1
      ⟨genExpense "e1" sampleTemplate sampleDate, ?_, rfl, rfl⟩
    simp

/-- C2: under sequential use every reachable snapshot has at most one
generated expense per (template id, month-year label) pair, and a second
mark-paid for the same template in the same month fails with a duplicate
and adds no record. -/
theorem claim_c2 :
    (∀ s : AppState, Reachable s → Inv s)
    ∧ (∀ (t : Template) (es : List Expense) (today : Date) (id1 id2 : String)
        (e : Expense) (es' : List Expense),
        markPaid t es today id1 = (MarkPaidResult.created e, es') →
        markPaid t es' today id2 = (MarkPaidResult.duplicate, es')) := by
  constructor
  · intro s0 hs
    induction hs with
    | init =>
      intro tid label
      simp [genCount]
    | @step s s' hprev hstep ih =>
      cases hstep with
      | addIncome f id => exact ih
      | addTemplate f id now => exact ih
      | deleteIncome id => exact ih
      | deleteTemplate id => exact ih
      | addExpense f id =>
        intro tid label
        have happ := genCount_append_single s.expenses (Expense.ofForm id f) tid label
        have hc : ((Expense.ofForm id f).isGenerated
            && (Expense.ofForm id f).recurringTemplateId == some tid
            && (formatMonthYear (Expense.ofForm id f).date == label)) = false := by
          simp [Expense.ofForm]
        rw [hc] at happ
        simp only [Bool.false_eq_true, if_false] at happ
        have hle := ih tid label
        show genCount (s.expenses ++ [Expense.ofForm id f]) tid label ≤ 1
        omega
      | deleteExpense id =>
        intro tid label
        exact le_trans (genCount_filter_le s.expenses _ tid label) (ih tid label)
      | markPaidOp t today id ht =>
        intro tid label
        show genCount (markPaid t s.expenses today id).2 tid label ≤ 1
        cases hb : alreadyPaid t s.expenses today
        · simp only [markPaid, hb, Bool.false_eq_true, if_false]
          rw [genCount_append_single]
          by_cases h1 : tid = t.id ∧ label = formatMonthYear today
          · obtain ⟨rfl, rfl⟩ := h1
            have hz := alreadyPaid_false_genCount t s.expenses today hb
            split_ifs <;> omega
          · have hc : ((genExpense id t today).isGenerated
                && (genExpense id t today).recurringTemplateId == some tid
                && (formatMonthYear (genExpense id t today).date == label)) = false := by
              rcases not_and_or.mp h1 with h | h
              · have hne : (some t.id == some tid) = false := by
                  rw [beq_eq_false_iff_ne]
                  intro hq
                  exact h (Option.some.inj hq).symm
                simp [genExpense, hne]
              · have hne : (formatMonthYear today == label) = false := by
                  rw [beq_eq_false_iff_ne]
                  exact fun hq => h hq.symm
                simp [genExpense, hne]
            rw [hc]
            have hle := ih tid label
            simp only [Bool.false_eq_true, if_false]
            omega
        · simp only [markPaid, hb, if_true]
          exact ih tid label
  · intro t es today id1 id2 e es' hmk
    cases hb : alreadyPaid t es today
    · simp only [markPaid, hb, Bool.false_eq_true, if_false, Prod.mk.injEq] at hmk
      obtain ⟨he, hes⟩ := hmk
      subst hes
      have hfull : alreadyPaid t (es ++ [genExpense id1 t today]) today = true := by
        simp [alreadyPaid, List.any_append, genExpense]
      simp [markPaid, hfull]
    · simp [markPaid, hb] at hmk

/-- C2 witness: the invariant holds in the snapshot reached by adding a
template and marking it paid, and a mark-paid that just created a record
immediately reports a duplicate when repeated. -/
theorem claim_c2_witness :
    genCount (markPaid (Template.ofForm "tpl1" sampleTemplateForm sampleDate)
        [] sampleDate "e1").2 "tpl1" "Nov 2025" ≤ 1
    ∧ markPaid sampleTemplate [genExpense "e1" sampleTemplate sampleDate]
        sampleDate "e2" =
      (MarkPaidResult.duplicate, [genExpense "e1" sampleTemplate sampleDate]) := by
  constructor
  · have r1 : Reachable ⟨[], [], [Template.ofForm "tpl1" sampleTemplateForm sampleDate]⟩ :=
      Reachable.step Reachable.init
        (Step.addTemplate ⟨[], [], []⟩ sampleTemplateForm "tpl1" sampleDate)
    have r2 : Reachable ⟨[], (markPaid (Template.ofForm "tpl1" sampleTemplateForm sampleDate)
        [] sampleDate "e1").2, [Template.ofForm "tpl1" sampleTemplateForm sampleDate]⟩ :=
      Reachable.step r1
        (Step.markPaidOp ⟨[], [], [Template.ofForm "tpl1" sampleTemplateForm sampleDate]⟩
          (Template.ofForm "tpl1" sampleTemplateForm sampleDate) sampleDate "e1" (by simp))
    exact claim_c2.1 _ r2 "tpl1" "Nov 2025"
  · exact claim_c2.2 sampleTemplate [] sampleDate "e1" "e2"
      (genExpense "e1" sampleTemplate sampleDate)
      [genExpense "e1" sampleTemplate sampleDate] rfl


theorem mem_report_incomes (incomes : List Income) (expenses : List Expense)
    (rv : String) (now : DateTime) (i : Income) :
    i ∈ (filteredTransactions incomes expenses rv now).incomes ↔
      i ∈ incomes ∧ (reportRange rv now).1 ≤ i.date.days * msPerDay ∧
        i.date.days * msPerDay ≤ (reportRange rv now).2 := by
  simp [filteredTransactions, List.mem_filter, and_assoc]

theorem mem_report_expenses (incomes : List Income) (expenses : List Expense)
    (rv : String) (now : DateTime) (e : Expense) :
    e ∈ (filteredTransactions incomes expenses rv now).expenses ↔
      e ∈ expenses ∧ (reportRange rv now).1 ≤ e.date.days * msPerDay ∧
        e.date.days * msPerDay ≤ (reportRange rv now).2 := by
  simp [filteredTransactions, List.mem_filter, and_assoc]

theorem reportRange_monthly (now : DateTime) :
    reportRange "Monthly" now =
      (mkDays now.date.year now.date.month 1 * msPerDay,
       mkDays now.date.year (now.date.month + 1) 0 * msPerDay) := by
  simp [reportRange]

theorem reportRange_weekly (now : DateTime) :
    reportRange "Weekly" now =
      (mondayOfWeek now.date.days * msPerDay + now.ms,
       (mondayOfWeek now.date.days + 6) * msPerDay + now.ms) := by
  have h1 : ("Weekly" == "Monthly") = false := by decide
  have h2 : ("Weekly" == "Weekly") = true := by decide
  simp only [reportRange, h1, h2, Bool.false_eq_true, if_false, if_true]
  have hd : mkDays now.date.year now.date.month
      (now.date.day - (now.date.days + 4) % 7 +
        (if (now.date.days + 4) % 7 = 0 then -6 else 1)) =
      mondayOfWeek now.date.days := by
    simp only [mkDays, mondayOfWeek, isoWeekday, Date.days]
    split_ifs <;> omega
  rw [hd]

theorem monthFirstDay_succ_valid (y m : Int) (h0 : 0 ≤ m) (h1 : m < 12) :
    monthFirstDay (12 * y + m + 1) = monthFirstDay (12 * y + m) + daysInMonth y m := by
  have hsucc := monthFirstDay_succ (12 * y + m)
  have hdiv : (12 * y + m) / 12 = y := by omega
  have hmod : (12 * y + m) % 12 = m := by omega
  rw [hdiv, hmod] at hsucc
  exact hsucc

theorem monthlyRange_iff (now : DateTime) (hn : now.date.valid) (d : Date)
    (hd : d.valid) :
    ((reportRange "Monthly" now).1 ≤ d.days * msPerDay ∧
      d.days * msPerDay ≤ (reportRange "Monthly" now).2) ↔
      ((firstOfMonth now.date).lexLe d ∧ d.lexLe (lastOfMonth now.date)) := by
  obtain ⟨hm0, hm1, hd0, hd1⟩ := hn
  rw [reportRange_monthly,
    ← days_le_iff_lexLe (firstOfMonth_valid now.date hm0 hm1) hd,
    ← days_le_iff_lexLe hd (lastOfMonth_valid now.date hm0 hm1)]
  have h1 := firstOfMonth_days now.date
  have h2 := lastOfMonth_days now.date
  have h3 := mkDays_next_month_zero now.date.year now.date.month hm0 hm1
  have h4 : mkDays now.date.year now.date.month 1 =
      monthFirstDay (12 * now.date.year + now.date.month) := by
    simp [mkDays]
  simp only [msPerDay] at *
  omega

/-- C3: for a fixed current moment the Monthly report contains exactly
the records dated between the first and the last calendar day of the
current month, both inclusive; records dated the last day of the previous
month or the first day of the next month are excluded. -/
theorem claim_c3 (incomes : List Income) (expenses : List Expense)
    (now : DateTime) (hn : now.date.valid) (i : Income) (hi : i.date.valid)
    (e : Expense) (he : e.date.valid) :
    (i ∈ (filteredTransactions incomes expenses "Monthly" now).incomes ↔
      i ∈ incomes ∧ (firstOfMonth now.date).lexLe i.date ∧
        i.date.lexLe (lastOfMonth now.date))
    ∧ (e ∈ (filteredTransactions incomes expenses "Monthly" now).expenses ↔
      e ∈ expenses ∧ (firstOfMonth now.date).lexLe e.date ∧
        e.date.lexLe (lastOfMonth now.date))
    ∧ (i.date = prevMonthLastDay now.date →
        i ∉ (filteredTransactions incomes expenses "Monthly" now).incomes)
    ∧ (e.date = prevMonthLastDay now.date →
        e ∉ (filteredTransactions incomes expenses "Monthly" now).expenses)
    ∧ (i.date = nextMonthFirstDay now.date →
        i ∉ (filteredTransactions incomes expenses "Monthly" now).incomes)
    ∧ (e.date = nextMonthFirstDay now.date →
        e ∉ (filteredTransactions incomes expenses "Monthly" now).expenses) := by
  have hmemI := mem_report_incomes incomes expenses "Monthly" now i
  have hmemE := mem_report_expenses incomes expenses "Monthly" now e
  have hri := monthlyRange_iff now hn i.date hi
  have hre := monthlyRange_iff now hn e.date he
  obtain ⟨hm0, hm1, hnd0, hnd1⟩ := hn
  have hprev := prevMonthLastDay_days now.date hm0 hm1
  have hnextd := nextMonthFirstDay_days now.date hm0 hm1
  have hsv := monthFirstDay_succ_valid now.date.year now.date.month hm0 hm1
  have h3 := mkDays_next_month_zero now.date.year now.date.month hm0 hm1
  have h4 : mkDays now.date.year now.date.month 1 =
      monthFirstDay (12 * now.date.year + now.date.month) := by
    simp [mkDays]
  refine ⟨by rw [hmemI, hri], by rw [hmemE, hre], ?_, ?_, ?_, ?_⟩
  · intro hdate hmem
    rw [hmemI] at hmem
    obtain ⟨hmem1, hA, hB⟩ := hmem
    rw [reportRange_monthly] at hA
    rw [hdate, hprev] at hA
    simp only [msPerDay] at hA
    omega
  · intro hdate hmem
    rw [hmemE] at hmem
    obtain ⟨hmem1, hA, hB⟩ := hmem
    rw [reportRange_monthly] at hA
    rw [hdate, hprev] at hA
    simp only [msPerDay] at hA
    omega
  · intro hdate hmem
    rw [hmemI] at hmem
    obtain ⟨hmem1, hA, hB⟩ := hmem
    rw [reportRange_monthly] at hB
    rw [hdate, hnextd] at hB
    simp only [msPerDay] at hB
    omega
  · intro hdate hmem
    rw [hmemE] at hmem
    obtain ⟨hmem1, hA, hB⟩ := hmem
    rw [reportRange_monthly] at hB
    rw [hdate, hnextd] at hB
    simp only [msPerDay] at hB
    omega

/-- C3 witness: a record dated 2025-11-03 appears in the Monthly report of
the moment 2025-11-05 at 1 ms past midnight. -/
theorem claim_c3_witness :
    mondayIncome ∈
      (filteredTransactions [mondayIncome] [] "Monthly" sampleNow).incomes := by
  exact (claim_c3 [mondayIncome] [] sampleNow (by decide) mondayIncome (by decide)
    overpayExpense (by decide)).1.mpr ⟨by simp, by decide, by decide⟩

/-- C6 (amended): the Weekly report contains exactly the records dated
between the computed Monday and the following Sunday, except that a
record dated the Monday itself is included only when the current
time-of-day is exactly midnight (the range endpoints inherit the
current time-of-day, while stored record dates sit at midnight). -/
theorem claim_c6 (incomes : List Income) (expenses : List Expense)
    (now : DateTime) (hn : now.valid) (i : Income) (e : Expense) :
    (i ∈ (filteredTransactions incomes expenses "Weekly" now).incomes ↔
      i ∈ incomes ∧ mondayOfWeek now.date.days ≤ i.date.days ∧
        i.date.days ≤ mondayOfWeek now.date.days + 6 ∧
        (i.date.days = mondayOfWeek now.date.days → now.ms = 0))
    ∧ (e ∈ (filteredTransactions incomes expenses "Weekly" now).expenses ↔
      e ∈ expenses ∧ mondayOfWeek now.date.days ≤ e.date.days ∧
        e.date.days ≤ mondayOfWeek now.date.days + 6 ∧
        (e.date.days = mondayOfWeek now.date.days → now.ms = 0)) := by
  obtain ⟨hnv, hms0, hms1⟩ := hn
  simp only [DateTime.valid, msPerDay] at hms1
  constructor
  · rw [mem_report_incomes, reportRange_weekly]
    simp only [msPerDay]
    constructor
    · rintro ⟨h1, h2, h3⟩
      exact ⟨h1, by omega, by omega, by omega⟩
    · rintro ⟨h1, h2, h3, h4⟩
      exact ⟨h1, by omega, by omega⟩
  · rw [mem_report_expenses, reportRange_weekly]
    simp only [msPerDay]
    constructor
    · rintro ⟨h1, h2, h3⟩
      exact ⟨h1, by omega, by omega, by omega⟩
    · rintro ⟨h1, h2, h3, h4⟩
      exact ⟨h1, by omega, by omega⟩

/-- C6 counterexample: at the moment 2025-11-05 00:00:00.001 (a
Wednesday), the record dated Monday 2025-11-03 lies between the Monday of
the current week and the following Sunday, yet the Weekly report omits
it, refuting the claimed inclusive Monday endpoint. -/
theorem claim_c6_counterexample :
    sampleNow.valid
    ∧ mondayOfWeek sampleNow.date.days = sampleMonday.days
    ∧ mondayIncome.date = sampleMonday
    ∧ mondayIncome ∉
        (filteredTransactions [mondayIncome] [] "Weekly" sampleNow).incomes := by
  refine ⟨by decide, by decide, rfl, by decide⟩

/-- C6 witness: at an exact-midnight moment the Monday record is included,
and the bounds of the amended statement hold for it. -/
theorem claim_c6_witness :
    mondayIncome ∈
      (filteredTransactions [mondayIncome] [] "Weekly" ⟨sampleDate, 0⟩).incomes := by
  exact (claim_c6 [mondayIncome] [] ⟨sampleDate, 0⟩ (by decide) mondayIncome
    overpayExpense).1.mpr ⟨by simp, by decide, by decide, fun _ => rfl⟩


theorem getPaidAmount_nil (today : Date) : getPaidAmount [] today = 0 := rfl

theorem getPaidAmount_cons_pos (e : Expense) (l : List Expense) (today : Date)
    (h : (strTruthy e.recurringTemplateId
      && (formatMonthYear e.date == formatMonthYear today)) = true) :
    getPaidAmount (e :: l) today = e.amount + getPaidAmount l today := by
  simp [getPaidAmount, sumExpense, List.filter_cons, h]

/-- C4: the paid amount for the current month sums exactly the expenses
with a (truthy) recurringTemplateId whose month-year label is the current
one; the label has short-month-name plus year format; and the value does
not depend on the selected dues-frequency filter. -/
theorem claim_c4 :
    (∀ (expenses : List Expense) (today : Date),
      getPaidAmount expenses today =
        ((expenses.filter (fun e => strTruthy e.recurringTemplateId
            && (formatMonthYear e.date == formatMonthYear today))).map
          Expense.amount).sum)
    ∧ formatMonthYear sampleDate = "Nov 2025"
    ∧ (∀ (s : ViewState) (f1 f2 : String),
        (derive { s with duesFilter := f1 }).getPaidAmount =
          (derive { s with duesFilter := f2 }).getPaidAmount) := by
  exact ⟨fun expenses today => rfl, by decide, fun s f1 f2 => rfl⟩

/-- C5: total dues for filter F sums exactly the templates whose
effective frequency is F (missing frequency defaulting to Monthly), and
is unchanged by inserting or removing a template of another frequency. -/
theorem claim_c5 :
    (∀ (templates : List Template) (F : String),
      totalMonthlyDues templates F =
        ((templates.filter (fun t => effFrequency t == F)).map
          Template.amount).sum)
    ∧ (∀ t : Template, t.frequency = none → effFrequency t = "Monthly")
    ∧ (∀ (l1 l2 : List Template) (t : Template) (F : String),
        effFrequency t ≠ F →
        totalMonthlyDues (l1 ++ t :: l2) F = totalMonthlyDues (l1 ++ l2) F) := by
  refine ⟨fun templates F => rfl, fun t ht => by simp [effFrequency, ht],
    fun l1 l2 t F hne => ?_⟩
  have hf : (effFrequency t == F) = false := by
    rw [beq_eq_false_iff_ne]
    exact hne
  simp [totalMonthlyDues, filteredDues, sumTemplate, List.filter_append,
    List.filter_cons, hf]

/-- C5 witness: a Weekly template does not change the Monthly dues total. -/
theorem claim_c5_witness :
    totalMonthlyDues ([] ++ weeklyTemplate :: []) "Monthly" =
      totalMonthlyDues ([] ++ []) "Monthly" :=
  claim_c5.2.2 [] [] weeklyTemplate "Monthly" (by decide)

/-- C7: average income (and average expense) equals the sum of amounts
divided by max(1, count); it is 0 on the empty list, and on a non-empty
list the average times the count gives back the sum. -/
theorem claim_c7 :
    (∀ l : List Income,
      avgMonthlyIncome l = sumIncome l / ((max 1 l.length : Nat) : Rat))
    ∧ avgMonthlyIncome [] = 0
    ∧ (∀ l : List Income, l ≠ [] →
        avgMonthlyIncome l * (l.length : Rat) = sumIncome l)
    ∧ (∀ l : List Expense,
        avgMonthlyExpense l = sumExpense l / ((max 1 l.length : Nat) : Rat))
    ∧ avgMonthlyExpense [] = 0
    ∧ (∀ l : List Expense, l ≠ [] →
        avgMonthlyExpense l * (l.length : Rat) = sumExpense l) := by
  refine ⟨fun l => ?_, rfl, fun l hl => ?_, fun l => ?_, rfl, fun l hl => ?_⟩
  · by_cases h : l.length = 0
    · have hnil : l = [] := List.length_eq_zero.mp h
      subst hnil
      simp [avgMonthlyIncome, sumIncome]
    · simp [avgMonthlyIncome, h]
  · have hlen : l.length ≠ 0 := fun h => hl (List.length_eq_zero.mp h)
    have hmax : max 1 l.length = l.length := Nat.max_eq_right (by omega)
    have hcast : ((l.length : Nat) : Rat) ≠ 0 := Nat.cast_ne_zero.mpr hlen
    simp only [avgMonthlyIncome, hlen, if_false, hmax]
    exact div_mul_cancel₀ _ hcast
  · by_cases h : l.length = 0
    · have hnil : l = [] := List.length_eq_zero.mp h
      subst hnil
      simp [avgMonthlyExpense, sumExpense]
    · simp [avgMonthlyExpense, h]
  · have hlen : l.length ≠ 0 := fun h => hl (List.length_eq_zero.mp h)
    have hmax : max 1 l.length = l.length := Nat.max_eq_right (by omega)
    have hcast : ((l.length : Nat) : Rat) ≠ 0 := Nat.cast_ne_zero.mpr hlen
    simp only [avgMonthlyExpense, hlen, if_false, hmax]
    exact div_mul_cancel₀ _ hcast

/-- C7 witness: on the two incomes with amounts 1000 and 2000, the
average times the count recovers the sum. -/
theorem claim_c7_witness :
    avgMonthlyIncome [sampleIncome1, sampleIncome2] *
        (([sampleIncome1, sampleIncome2] : List Income).length : Rat) =
      sumIncome [sampleIncome1, sampleIncome2] :=
  claim_c7.2.2.1 [sampleIncome1, sampleIncome2] (by simp)

/-- C8 (amended): remaining is total dues minus paid with no clamping and
is negative whenever paid exceeds the filtered total; progress is
(paid / dues) * 100 when dues are positive and 0 otherwise, not clamped,
and exceeds 100 whenever the dues are positive and paid exceeds them. -/
theorem claim_c8 (templates : List Template) (F : String)
    (expenses : List Expense) (today : Date) :
    (remainingToPay templates F expenses today =
      totalMonthlyDues templates F - getPaidAmount expenses today)
    ∧ (getPaidAmount expenses today > totalMonthlyDues templates F →
        remainingToPay templates F expenses today < 0)
    ∧ (paymentProgress templates F expenses today =
        if totalMonthlyDues templates F > 0 then
          getPaidAmount expenses today / totalMonthlyDues templates F * 100
        else 0)
    ∧ (totalMonthlyDues templates F > 0 →
        getPaidAmount expenses today > totalMonthlyDues templates F →
        paymentProgress templates F expenses today > 100) := by
  refine ⟨rfl, fun h => ?_, rfl, fun hpos hover => ?_⟩
  · simp only [remainingToPay]
    linarith
  · rw [paymentProgress, if_pos hpos]
    have h1 : (1 : Rat) < getPaidAmount expenses today / totalMonthlyDues templates F :=
      (one_lt_div hpos).mpr hover
    linarith

/-- C8 counterexample: with no templates and one paid recurring expense,
paid exceeds the (zero) filtered total but progress is 0, not above 100. -/
theorem claim_c8_counterexample :
    getPaidAmount [overpayExpense] sampleDate >
      totalMonthlyDues [] "Monthly"
    ∧ ¬ paymentProgress [] "Monthly" [overpayExpense] sampleDate > 100 := by
  have hp : getPaidAmount [overpayExpense] sampleDate = 600 := by
    rw [getPaidAmount_cons_pos overpayExpense [] sampleDate (by decide),
      getPaidAmount_nil]
    norm_num [overpayExpense]
  have hd : totalMonthlyDues [] "Monthly" = 0 := rfl
  have hpr : paymentProgress [] "Monthly" [overpayExpense] sampleDate = 0 := by
    rw [paymentProgress, if_neg]
    rw [hd]
    norm_num
  rw [hp, hd, hpr]
  norm_num

/-- C8 witness: with a 500 template and a 600 payment this month,
remaining is negative and progress exceeds 100. -/
theorem claim_c8_witness :
    remainingToPay [sampleTemplate] "Monthly" [overpayExpense] sampleDate < 0
    ∧ paymentProgress [sampleTemplate] "Monthly" [overpayExpense] sampleDate > 100 := by
  have hp : getPaidAmount [overpayExpense] sampleDate = 600 := by
    rw [getPaidAmount_cons_pos overpayExpense [] sampleDate (by decide),
      getPaidAmount_nil]
    norm_num [overpayExpense]
  have hd : totalMonthlyDues [sampleTemplate] "Monthly" = 500 := by
    simp [totalMonthlyDues, filteredDues, sumTemplate, List.filter_cons,
      sampleTemplate, effFrequency]
  constructor
  · exact (claim_c8 [sampleTemplate] "Monthly" [overpayExpense] sampleDate).2.1
      (by rw [hp, hd]; norm_num)
  · exact (claim_c8 [sampleTemplate] "Monthly" [overpayExpense] sampleDate).2.2.2
      (by rw [hd]; norm_num) (by rw [hp, hd]; norm_num)

/-- C9: the is-paid check holds exactly when a matching expense exists,
holds immediately after a successful mark-paid for that month, and is
preserved by appending records that do not match the (template, label)
pair. -/
theorem claim_c9 :
    (∀ (t : Template) (label : String) (es : List Expense),
      isPaid t label es = true ↔
        ∃ e ∈ es, e.recurringTemplateId = some t.id ∧
          formatMonthYear e.date = label)
    ∧ (∀ (t : Template) (es : List Expense) (today : Date) (id : String)
        (e : Expense) (es' : List Expense),
        markPaid t es today id = (MarkPaidResult.created e, es') →
        isPaid t (formatMonthYear today) es' = true)
    ∧ (∀ (t : Template) (label : String) (es : List Expense) (e1 : Expense),
        isPaid t label es = true →
        ¬ (e1.recurringTemplateId = some t.id ∧ formatMonthYear e1.date = label) →
        isPaid t label (es ++ [e1]) = true)
    ∧ (∀ (s : AppState) (f : IncomeForm) (id : String) (t : Template)
        (label : String),
        isPaid t label ({ s with incomes := s.incomes ++ [Income.ofForm id f] }).expenses =
          isPaid t label s.expenses)
    ∧ (∀ (s : AppState) (f : TemplateForm) (id : String) (now : Date)
        (t : Template) (label : String),
        isPaid t label ({ s with recurringTemplates :=
            s.recurringTemplates ++ [Template.ofForm id f now] }).expenses =
          isPaid t label s.expenses) := by
  refine ⟨fun t label es => ?_, fun t es today id e es' hmk => ?_,
    fun t label es e1 h hne => ?_, fun s f id t label => rfl,
    fun s f id now t label => rfl⟩
  · simp [isPaid, List.any_eq_true]
  · cases hb : alreadyPaid t es today
    · simp only [markPaid, hb, Bool.false_eq_true, if_false, Prod.mk.injEq] at hmk
      obtain ⟨he, hes⟩ := hmk
      subst hes
      simp [isPaid, List.any_append, genExpense]
    · simp [markPaid, hb] at hmk
  · simp only [isPaid, List.any_append, Bool.or_eq_true] at h ⊢
    exact Or.inl h

/-- C9 witness: after marking the sample template paid, is-paid holds for
the current label, and still holds after an unrelated user expense is
appended. -/
theorem claim_c9_witness :
    isPaid sampleTemplate (formatMonthYear sampleDate)
      [genExpense "e1" sampleTemplate sampleDate] = true
    ∧ isPaid sampleTemplate (formatMonthYear sampleDate)
        ([genExpense "e1" sampleTemplate sampleDate] ++
          [Expense.ofForm "e2" sampleExpenseForm]) = true := by
  constructor
  · exact claim_c9.2.1 sampleTemplate [] sampleDate "e1"
      (genExpense "e1" sampleTemplate sampleDate)
      [genExpense "e1" sampleTemplate sampleDate] rfl
  · have hpaid : isPaid sampleTemplate (formatMonthYear sampleDate)
        [genExpense "e1" sampleTemplate sampleDate] = true :=
      claim_c9.2.1 sampleTemplate [] sampleDate "e1"
        (genExpense "e1" sampleTemplate sampleDate)
        [genExpense "e1" sampleTemplate sampleDate] rfl
    have hnm : ¬ ((Expense.ofForm "e2" sampleExpenseForm).recurringTemplateId =
        some sampleTemplate.id ∧
        formatMonthYear (Expense.ofForm "e2" sampleExpenseForm).date =
          formatMonthYear sampleDate) := by decide
    exact claim_c9.2.2.1 sampleTemplate (formatMonthYear sampleDate)
      [genExpense "e1" sampleTemplate sampleDate]
      (Expense.ofForm "e2" sampleExpenseForm) hpaid hnm

/-- C10: the aggregation engine is deterministic: evaluations over equal
snapshots and view parameters produce identical derived outputs. -/
theorem claim_c10 (s1 s2 : ViewState) (h1 : s1.incomes = s2.incomes)
    (h2 : s1.expenses = s2.expenses)
    (h3 : s1.recurringTemplates = s2.recurringTemplates)
    (h4 : s1.duesFilter = s2.duesFilter) (h5 : s1.reportView = s2.reportView)
    (h6 : s1.now = s2.now) :
    derive s1 = derive s2 := by
  have hs : s1 = s2 := by
    cases s1
    cases s2
    simp_all
  rw [hs]

/-- C10 witness: the derivation applied twice to the sample view state. -/
theorem claim_c10_witness : derive sampleView = derive sampleView :=
  claim_c10 sampleView sampleView rfl rfl rfl rfl rfl rfl

end FinanceApp
